import Mathlib

/-!
Shallow embedding of the `concurrentlimit` Go package (src/concurrentlimit.go,
src/grpclimit/grpclimit.go) and theorems about its admission-control behavior.

Go `int` values are modelled as `Int`: the counters are bounded by the
configured capacity, so 64-bit wraparound is unreachable for any capacity a
process can hold in flight.  A Go `panic` (which terminates the process here:
nothing in this package recovers) is modelled as `none` of an `Option`.
-/

namespace ConcurrentLimit

/-- Go `error` values that appear in this package: the sentinel `ErrLimited`
(`errors.New("exceeded limit of concurrent operations")` in
src/concurrentlimit.go line 16) and an `other` constructor standing for every
other possible Go error value, so that statements about "no other error is
returned" are not vacuous. -/
inductive GoError where
  | errLimited
  | other (msg : String)
deriving DecidableEq, Repr

/-- `err.Error()`: the message carried by a Go error. -/
def GoError.message : GoError → String
  | .errLimited => "exceeded limit of concurrent operations"
  | .other m => m

/-- The state of a `syncLimiter` (src/concurrentlimit.go lines 56-60).  The
mutex serializes `Start`/`end`; under that serialization each call is an atomic
state transition, so the mutex itself needs no representation. -/
structure SyncLimiter where
  max : Int
  current : Int
deriving DecidableEq, Repr

/-- The pair returned by `syncLimiter.Start`: the post state, whether the
returned `func()` is nil, and the returned error (`none` = nil). -/
structure StartResult where
  state : SyncLimiter
  releaseIsNil : Bool
  err : Option GoError
deriving DecidableEq, Repr

/-- `syncLimiter.Start` (src/concurrentlimit.go lines 62-73):
`next := s.current + 1; if next > s.max { return nil, ErrLimited };
s.current = next; return s.end, nil`. -/
def SyncLimiter.Start (s : SyncLimiter) : StartResult :=
  let next := s.current + 1
  if next > s.max then
    { state := s, releaseIsNil := true, err := some .errLimited }
  else
    { state := { s with current := next }, releaseIsNil := false, err := none }

/-- `syncLimiter.end` (src/concurrentlimit.go lines 75-82):
`s.current--; if s.current < 0 { panic("bug: mismatched calls to start/end") }`.
`none` is the panic (the process terminates with the mutex held). -/
def SyncLimiter.«end» (s : SyncLimiter) : Option SyncLimiter :=
  let current := s.current - 1
  if current < 0 then
    none
  else
    some { s with current := current }

/-- `New` (src/concurrentlimit.go lines 49-54): panics (`none`) if
`limit <= 0`, otherwise returns `&syncLimiter{sync.Mutex{}, limit, 0}`. -/
def New (limit : Int) : Option SyncLimiter :=
  if limit ≤ 0 then none
  else some { max := limit, current := 0 }

/-- A Go `Limiter` interface value as produced by this package: the nil
interface, a `*nilLimiter`, or a `*syncLimiter` with its state. -/
inductive LimiterVal where
  | nilInterface
  | nilLimiter
  | sync (s : SyncLimiter)
deriving DecidableEq, Repr

/-- `NoLimit` (src/concurrentlimit.go lines 35-37): `return nil` — the nil
`Limiter` interface value.  (The `nilLimiter` type declared below it has only
the unexported lowercase `start` method, so it is not what `NoLimit`
returns.) -/
def NoLimit : LimiterVal := .nilInterface

/-- Observable result of one `limiter.Start()` interface call. -/
structure CallStartResult where
  limiter : LimiterVal
  releaseIsNil : Bool
  err : Option GoError
deriving DecidableEq, Repr

/-- One `limiter.Start()` call through the `Limiter` interface.  Calling a
method through the nil interface value panics (nil pointer dereference),
modelled as `none`.  `nilLimiter.start` (src/concurrentlimit.go lines 43-45)
returns `(doNothing, nil)`. -/
def callStart : LimiterVal → Option CallStartResult
  | .nilInterface => none
  | .nilLimiter => some { limiter := .nilLimiter, releaseIsNil := false, err := none }
  | .sync s =>
      let r := s.Start
      some { limiter := .sync r.state, releaseIsNil := r.releaseIsNil, err := r.err }

/-- Invoking the release token returned by a successful `Start`: for a
`*syncLimiter` the token is the bound method `s.end`; for the `nilLimiter` it
is `doNothing`.  `none` is a panic. -/
def callEnd : LimiterVal → Option LimiterVal
  | .nilInterface => none
  | .nilLimiter => some .nilLimiter
  | .sync s => (s.«end»).map .sync

/-- One operation applied to a bounded limiter: a `Start()` call (which either
admits or rejects) or an invocation of a release token.  All release tokens of
one `syncLimiter` are the same bound method `s.end`, so a token is not
distinguishable from another in the state. -/
inductive Op where
  | start
  | release
deriving DecidableEq, Repr

/-- Apply one operation to a `syncLimiter`; `none` when the operation
panics. -/
def SyncLimiter.applyOp (s : SyncLimiter) : Op → Option SyncLimiter
  | .start => some (s.Start).state
  | .release => s.«end»

/-- Run a sequence of `Start`/release operations; `none` as soon as one
panics (the process has terminated). -/
def runOps (s : SyncLimiter) : List Op → Option SyncLimiter
  | [] => some s
  | op :: rest => (s.applyOp op).bind fun s' => runOps s' rest

/-- The central invariant of the data model: `0 ≤ inFlight ≤ capacity`. -/
def Invariant (s : SyncLimiter) : Prop :=
  0 ≤ s.current ∧ s.current ≤ s.max

/-- An HTTP response as written by `http.Error`: a status code, the body text
(`http.Error` appends a newline to the message), and the fact that
`http.Error` always sets `Content-Type: text/plain; charset=utf-8`. -/
structure HTTPResponse where
  status : Int
  body : String
  contentTypePlainText : Bool
deriving DecidableEq, Repr

/-- `http.Error(w, msg, code)`. -/
def httpError (msg : String) (code : Int) : HTTPResponse :=
  { status := code, body := msg ++ "\n", contentTypePlainText := true }

/-- `http.StatusTooManyRequests`. -/
def statusTooManyRequests : Int := 429

/-- `http.StatusInternalServerError`. -/
def statusInternalServerError : Int := 500

/-- How one invocation of the wrapped handler terminates: a normal return, or
a panic/abort that unwinds through the wrapping closure. -/
inductive HandlerOutcome where
  | returns
  | panics
deriving DecidableEq, Repr

/-- Observable effect of one request through `Handler`'s closure: the limiter
state afterwards, any response the closure itself wrote (`http.Error`), whether
the wrapped handler's `ServeHTTP` was invoked, how many times `end()` was
invoked by the closure, and whether the closure itself terminated by panic. -/
structure HandlerResult where
  limiter : LimiterVal
  response : Option HTTPResponse
  handlerInvoked : Bool
  releaseCalls : Nat
  panicked : Bool
deriving DecidableEq, Repr

/-- The closure built by `Handler(limiter, handler)` (src/concurrentlimit.go
lines 148-166), run on one request:
`end, err := limiter.Start(); if err == ErrLimited { http.Error(w, err.Error(),
http.StatusTooManyRequests); return }; if err != nil { log; http.Error(w,
http.StatusText(500), 500); return }; handler.ServeHTTP(w, r); end()`.
The call to `end()` is written after `handler.ServeHTTP` with no `defer`, so a
panic in the wrapped handler unwinds past the closure before `end()` runs. -/
def HandlerServeHTTP (limiter : LimiterVal) (outcome : HandlerOutcome) : HandlerResult :=
  match callStart limiter with
  | none =>
      { limiter := limiter, response := none, handlerInvoked := false,
        releaseCalls := 0, panicked := true }
  | some r =>
    match r.err with
    | some GoError.errLimited =>
        { limiter := r.limiter,
          response := some (httpError (GoError.message .errLimited) statusTooManyRequests),
          handlerInvoked := false, releaseCalls := 0, panicked := false }
    | some (GoError.other _) =>
        { limiter := r.limiter,
          response := some (httpError "Internal Server Error" statusInternalServerError),
          handlerInvoked := false, releaseCalls := 0, panicked := false }
    | none =>
      match outcome with
      | .panics =>
          { limiter := r.limiter, response := none, handlerInvoked := true,
            releaseCalls := 0, panicked := true }
      | .returns =>
        match callEnd r.limiter with
        | none =>
            { limiter := r.limiter, response := none, handlerInvoked := true,
              releaseCalls := 1, panicked := true }
        | some l2 =>
            { limiter := l2, response := none, handlerInvoked := true,
              releaseCalls := 1, panicked := false }

/-- The value of `srv.Handler`: the user's original handler, or the original
wrapped by `Handler(New(capacity), inner)`. -/
inductive HandlerVal where
  | user
  | limited (capacity : Int) (inner : HandlerVal)
deriving DecidableEq, Repr

/-- The fields of `*http.Server` that `limitListenerForServer` reads or
writes.  Timeouts are in nanoseconds (Go `time.Duration`); 0 means unset. -/
structure Server where
  readHeaderTimeout : Int
  idleTimeout : Int
  handler : HandlerVal
deriving DecidableEq, Repr

/-- `httpReadHeaderTimeout = time.Minute` (src/concurrentlimit.go line 19). -/
def httpReadHeaderTimeout : Int := 60000000000

/-- `httpIdleTimeout = time.Minute` (src/concurrentlimit.go line 18). -/
def httpIdleTimeout : Int := 60000000000

/-- The errors `limitListenerForServer` can return: the two configuration
errors built with `fmt.Errorf`, or the error from a failed `net.Listen`. -/
inductive SetupError where
  | requestLimitNotPositive (requestLimit : Int)
  | connectionLimitTooSmall (connectionLimit requestLimit : Int)
  | listenFailed
deriving DecidableEq, Repr

/-- The listener returned on success: the raw TCP listener wrapped by
`netutil.LimitListener(unlimitedListener, connectionLimit)`. -/
structure LimitedListener where
  connectionLimit : Int
deriving DecidableEq, Repr

/-- The outcome of `limitListenerForServer`: either an error with a nil
listener, or the wrapped listener. -/
inductive SetupOutcome where
  | failure (e : SetupError)
  | success (l : LimitedListener)
deriving DecidableEq, Repr

/-- Everything observable about one `limitListenerForServer` call: the server
(with any mutations applied), how many sockets `net.Listen` successfully
opened, and the returned value. -/
structure SetupResult where
  srv : Server
  socketsOpened : Nat
  result : SetupOutcome
deriving DecidableEq, Repr

/-- `limitListenerForServer` (src/concurrentlimit.go lines 103-131), with the
success or failure of the `net.Listen("tcp", srv.Addr)` system call supplied
as the parameter `listenOk`.  Order of the source: validate `requestLimit`,
validate `connectionLimit`, `net.Listen`, wrap with
`netutil.LimitListener`, default the two timeouts (a conditional assignment
to each field), then
`limiter := New(requestLimit); srv.Handler = Handler(limiter, srv.Handler)`
(recorded as the `HandlerVal.limited requestLimit` node). -/
def limitListenerForServer (srv : Server) (requestLimit connectionLimit : Int)
    (listenOk : Bool) : SetupResult :=
  if requestLimit ≤ 0 then
    { srv := srv, socketsOpened := 0,
      result := .failure (.requestLimitNotPositive requestLimit) }
  else if connectionLimit < requestLimit then
    { srv := srv, socketsOpened := 0,
      result := .failure (.connectionLimitTooSmall connectionLimit requestLimit) }
  else if listenOk = false then
    { srv := srv, socketsOpened := 0, result := .failure .listenFailed }
  else
    let srv1 := { srv with
      readHeaderTimeout :=
        if srv.readHeaderTimeout ≤ 0 then httpReadHeaderTimeout
        else srv.readHeaderTimeout }
    let srv2 := { srv1 with
      idleTimeout := if srv1.idleTimeout ≤ 0 then httpIdleTimeout else srv1.idleTimeout }
    let srv3 := { srv2 with handler := .limited requestLimit srv2.handler }
    { srv := srv3, socketsOpened := 1,
      result := .success { connectionLimit := connectionLimit } }

/-- gRPC status codes used by src/grpclimit/grpclimit.go. -/
inductive GrpcStatusCode where
  | resourceExhausted
deriving DecidableEq, Repr

/-- The `(interface\x7b\x7d, error)` pair returned by the interceptor closure:
a `status.Error` value, a plain Go error passed through, or whatever the
`next` interceptor or the `handler` returned. -/
inductive GrpcReply where
  | statusError (code : GrpcStatusCode) (msg : String)
  | plainError (e : GoError)
  | fromNext
  | fromHandler
deriving DecidableEq, Repr

/-- Observable effect of one call through `UnaryInterceptor`'s closure. -/
structure InterceptResult where
  limiter : LimiterVal
  reply : Option GrpcReply
  nextInvoked : Bool
  handlerInvokedDirectly : Bool
  releaseCalls : Nat
  panicked : Bool
deriving DecidableEq, Repr

/-- The closure built by `UnaryInterceptor(limiter, next)`
(src/grpclimit/grpclimit.go lines 89-107), run on one unary call with the
wrapped chain terminating normally:
`end, err := limiter.Start(); if err == concurrentlimit.ErrLimited { return
nil, status.Error(codes.ResourceExhausted, err.Error()) }; if err != nil {
return nil, err }; defer end(); if next != nil { return next(ctx, req, info,
handler) }; return handler(ctx, req)`.  `nextIsNil` is whether the
user-supplied interceptor `next` is nil. -/
def UnaryInterceptorCall (limiter : LimiterVal) (nextIsNil : Bool) : InterceptResult :=
  match callStart limiter with
  | none =>
      { limiter := limiter, reply := none, nextInvoked := false,
        handlerInvokedDirectly := false, releaseCalls := 0, panicked := true }
  | some r =>
    match r.err with
    | some GoError.errLimited =>
        { limiter := r.limiter,
          reply := some (.statusError .resourceExhausted (GoError.message .errLimited)),
          nextInvoked := false, handlerInvokedDirectly := false,
          releaseCalls := 0, panicked := false }
    | some (GoError.other m) =>
        { limiter := r.limiter, reply := some (.plainError (.other m)),
          nextInvoked := false, handlerInvokedDirectly := false,
          releaseCalls := 0, panicked := false }
    | none =>
      match callEnd r.limiter with
      | none =>
          { limiter := r.limiter, reply := none, nextInvoked := !nextIsNil,
            handlerInvokedDirectly := nextIsNil, releaseCalls := 1, panicked := true }
      | some l2 =>
          { limiter := l2,
            reply := some (if nextIsNil then .fromHandler else .fromNext),
            nextInvoked := !nextIsNil, handlerInvokedDirectly := nextIsNil,
            releaseCalls := 1, panicked := false }

/-! Helper lemmas shared by the claim theorems. -/

/-- `Start` on a full limiter: rejection leaves the state unchanged. -/
theorem start_of_full (s : SyncLimiter) (h : s.max ≤ s.current) :
    s.Start = { state := s, releaseIsNil := true, err := some .errLimited } := by
  simp only [SyncLimiter.Start]
  rw [if_pos (by omega)]

/-- `Start` on a limiter with room: admission increments the counter. -/
theorem start_of_available (s : SyncLimiter) (h : s.current < s.max) :
    s.Start = { state := { s with current := s.current + 1 },
                releaseIsNil := false, err := none } := by
  simp only [SyncLimiter.Start]
  rw [if_neg (by omega)]

/-- Releasing right after an admission restores the previous state. -/
theorem end_after_start (s : SyncLimiter) (h0 : 0 ≤ s.current) :
    SyncLimiter.«end» { s with current := s.current + 1 } = some s := by
  simp only [SyncLimiter.«end»]
  rw [if_neg (by omega)]
  have h : s.current + 1 - 1 = s.current := by omega
  rw [h]

/-- `Start` preserves the invariant. -/
theorem start_preserves_inv (s : SyncLimiter) (h : Invariant s) :
    Invariant (s.Start).state := by
  obtain ⟨h0, h1⟩ := h
  rcases lt_or_le s.current s.max with hlt | hge
  · rw [start_of_available s hlt]
    exact ⟨by dsimp only; omega, by dsimp only; omega⟩
  · rw [start_of_full s hge]
    exact ⟨h0, h1⟩

/-- A release that returns (no panic) preserves the invariant. -/
theorem end_preserves_inv (s : SyncLimiter) (h : Invariant s) (s' : SyncLimiter)
    (he : s.«end» = some s') : Invariant s' := by
  obtain ⟨h0, h1⟩ := h
  simp only [SyncLimiter.«end»] at he
  split at he
  · cases he
  · rename_i hge
    cases he
    exact ⟨by dsimp only; omega, by dsimp only; omega⟩

/-- The invariant is preserved by every sequence of operations that does not
panic. -/
theorem runOps_preserves_inv (ops : List Op) :
    ∀ s s' : SyncLimiter, Invariant s → runOps s ops = some s' → Invariant s' := by
  induction ops with
  | nil =>
      intro s s' h hrun
      simp only [runOps, Option.some.injEq] at hrun
      exact hrun ▸ h
  | cons op rest ih =>
      intro s s' h hrun
      simp only [runOps] at hrun
      cases op with
      | start =>
          simp only [SyncLimiter.applyOp, Option.some_bind] at hrun
          exact ih _ s' (start_preserves_inv s h) hrun
      | release =>
          simp only [SyncLimiter.applyOp] at hrun
          cases he : s.«end» with
          | none => rw [he] at hrun; cases hrun
          | some s1 =>
              rw [he] at hrun
              simp only [Option.some_bind] at hrun
              exact ih s1 s' (end_preserves_inv s h s1 he) hrun

/-! Claim theorems. -/

/-- C1: for every bounded Limiter created by `New(limit)` with `limit > 0`
(`New` returns a limiter exactly for those limits), the in-flight counter
satisfies `0 ≤ current ≤ max` after every sequence of `Start` and release
calls in which the process has not panicked; every intermediate state is the
final state of a prefix of the sequence, so the bound holds before and after
every individual call. -/
theorem C1_inflight_always_bounded (limit : Int) (s0 : SyncLimiter)
    (hnew : New limit = some s0) (ops : List Op) (s' : SyncLimiter)
    (hrun : runOps s0 ops = some s') :
    0 ≤ s'.current ∧ s'.current ≤ s'.max := by
  have h0 : Invariant s0 := by
    simp only [New] at hnew
    split at hnew
    · cases hnew
    · rename_i hpos
      cases hnew
      exact ⟨by dsimp only; omega, by dsimp only; omega⟩
  exact runOps_preserves_inv ops s0 s' h0 hrun

/-- C1 witness: capacity 2, trace start-start-release ends at counter 1. -/
theorem C1_inflight_always_bounded_witness :
    0 ≤ (⟨2, 1⟩ : SyncLimiter).current ∧
      (⟨2, 1⟩ : SyncLimiter).current ≤ (⟨2, 1⟩ : SyncLimiter).max :=
  C1_inflight_always_bounded 2 ⟨2, 0⟩ rfl [.start, .start, .release] ⟨2, 1⟩ rfl

/-- C2: on every state satisfying the invariant, `Start` rejects exactly when
`current = max`, returning the `ErrLimited` sentinel with a nil release and an
unchanged state; otherwise it increments `current` by one and returns a
non-nil release with a nil error; and the only non-nil error value `Start`
ever returns is the sentinel. -/
theorem C2_start_exact_behavior (s : SyncLimiter) (hinv : Invariant s) :
    (s.current = s.max →
      s.Start = { state := s, releaseIsNil := true, err := some GoError.errLimited }) ∧
    (s.current ≠ s.max →
      s.Start = { state := { s with current := s.current + 1 },
                  releaseIsNil := false, err := none }) ∧
    (∀ e, (s.Start).err = some e → e = GoError.errLimited) := by
  obtain ⟨h0, h1⟩ := hinv
  refine ⟨?_, ?_, ?_⟩
  · intro heq
    exact start_of_full s (by omega)
  · intro hne
    exact start_of_available s (by omega)
  · intro e he
    rcases lt_or_eq_of_le h1 with hlt | heq
    · rw [start_of_available s hlt] at he
      cases he
    · rw [start_of_full s (by omega)] at he
      cases he
      rfl

/-- C2 witness: capacity 2: at counter 1 `Start` admits, at counter 2 it
rejects with the sentinel. -/
theorem C2_start_exact_behavior_witness :
    SyncLimiter.Start ⟨2, 1⟩ =
      { state := ⟨2, 2⟩, releaseIsNil := false, err := none } ∧
    SyncLimiter.Start ⟨2, 2⟩ =
      { state := ⟨2, 2⟩, releaseIsNil := true, err := some GoError.errLimited } ∧
    GoError.errLimited = GoError.errLimited :=
  ⟨(C2_start_exact_behavior ⟨2, 1⟩ ⟨by decide, by decide⟩).2.1 (by decide),
   (C2_start_exact_behavior ⟨2, 2⟩ ⟨by decide, by decide⟩).1 rfl,
   (C2_start_exact_behavior ⟨2, 2⟩ ⟨by decide, by decide⟩).2.2 .errLimited
     (by rw [start_of_full ⟨2, 2⟩ (by decide)])⟩

/-- C3: the claim says every `Start()` on the `NoLimit()` limiter succeeds
with a nil error and a non-nil release.  In src/concurrentlimit.go `NoLimit`
returns the nil `Limiter` interface value (its `nilLimiter` type has only the
unexported lowercase `start` method and is never returned), so the very first
`Start()` call through the interface dereferences nil and panics; this
evaluates the code at that failing input. -/
theorem C3_noLimit_first_start_panics :
    NoLimit = LimiterVal.nilInterface ∧ callStart NoLimit = none :=
  ⟨rfl, rfl⟩

/-- C5 counterexample: capacity 2, two successful `Start` calls, then the
first token is invoked twice (every token of one `syncLimiter` is the same
bound method `s.end`, so the two release entries are that token invoked
twice while the second operation is still in flight).  The run returns
normally — no panic — with the counter silently under-counted to 0. -/
theorem C5_counterexample :
    New 2 = some ⟨2, 0⟩ ∧
    runOps ⟨2, 0⟩ [.start, .start, .release, .release] = some ⟨2, 0⟩ :=
  ⟨rfl, rfl⟩

/-- C5 amended: a second invocation of a release token panics exactly when the
decrement would take the counter below zero, i.e. only when no other
operation is in flight at that moment (`current = 0`); with other operations
in flight (`current > 0`) the double release returns normally and silently
decrements the counter. -/
theorem C5_double_release_detected_only_at_zero (s : SyncLimiter) :
    (s.current = 0 → s.«end» = none) ∧
    (0 < s.current → s.«end» = some { s with current := s.current - 1 }) := by
  constructor
  · intro h0
    simp only [SyncLimiter.«end»]
    rw [if_pos (by omega)]
  · intro hpos
    simp only [SyncLimiter.«end»]
    rw [if_neg (by omega)]

/-- C5 amended witness: release at counter 0 panics; at counter 1 it returns
normally. -/
theorem C5_double_release_detected_only_at_zero_witness :
    SyncLimiter.«end» ⟨2, 0⟩ = none ∧ SyncLimiter.«end» ⟨2, 1⟩ = some ⟨2, 0⟩ :=
  ⟨(C5_double_release_detected_only_at_zero ⟨2, 0⟩).1 rfl,
   (C5_double_release_detected_only_at_zero ⟨2, 1⟩).2 (by decide)⟩

/-- C6: a release call when the counter is zero (any call whose decrement
would take the counter below zero) panics instead of returning, and every
release call that does return leaves the counter non-negative. -/
theorem C6_release_underflow_is_fatal (s : SyncLimiter) :
    (s.current = 0 → s.«end» = none) ∧
    (∀ s', s.«end» = some s' → 0 ≤ s'.current) := by
  constructor
  · intro h0
    simp only [SyncLimiter.«end»]
    rw [if_pos (by omega)]
  · intro s' he
    simp only [SyncLimiter.«end»] at he
    split at he
    · cases he
    · rename_i hge
      cases he
      dsimp only
      omega

/-- C6 witness: release at counter 0 panics; the release at counter 3 returns
with a non-negative counter. -/
theorem C6_release_underflow_is_fatal_witness :
    SyncLimiter.«end» ⟨5, 0⟩ = none ∧ 0 ≤ (⟨5, 2⟩ : SyncLimiter).current :=
  ⟨(C6_release_underflow_is_fatal ⟨5, 0⟩).1 rfl,
   (C6_release_underflow_is_fatal ⟨5, 3⟩).2 ⟨5, 2⟩ rfl⟩

/-- C10: neither `Start` (on any path: admission or rejection) nor a
returning release call ever changes the configured capacity `max`. -/
theorem C10_capacity_never_modified (s : SyncLimiter) :
    (s.Start).state.max = s.max ∧ ∀ s', s.«end» = some s' → s'.max = s.max := by
  constructor
  · simp only [SyncLimiter.Start]
    split <;> rfl
  · intro s' he
    simp only [SyncLimiter.«end»] at he
    split at he
    · cases he
    · cases he
      rfl

/-- C10 witness at capacity 3, counter 1. -/
theorem C10_capacity_never_modified_witness :
    (SyncLimiter.Start ⟨3, 1⟩).state.max = 3 ∧ (⟨3, 0⟩ : SyncLimiter).max = 3 :=
  ⟨(C10_capacity_never_modified ⟨3, 1⟩).1,
   (C10_capacity_never_modified ⟨3, 1⟩).2 ⟨3, 0⟩ rfl⟩

/-- C4 counterexample: a fresh limiter of capacity 1 admits the request; the
wrapped handler panics; `end()` is never invoked (`releaseCalls = 0`) and the
in-flight count stays at 1 instead of being decremented back — the source
calls `end()` after `handler.ServeHTTP` without `defer`, so the panic unwinds
past it. -/
theorem C4_counterexample :
    HandlerServeHTTP (.sync ⟨1, 0⟩) .panics =
      { limiter := .sync ⟨1, 1⟩, response := none, handlerInvoked := true,
        releaseCalls := 0, panicked := true } :=
  rfl

/-- C4 amended: after an admitted request, the Handler closure invokes
`end()` exactly once when the wrapped handler returns normally, restoring the
in-flight count; when the wrapped handler panics, `end()` is not invoked and
the in-flight count remains incremented (the admission slot leaks). -/
theorem C4_release_once_only_on_normal_return (s : SyncLimiter)
    (h0 : 0 ≤ s.current) (hroom : s.current < s.max) :
    HandlerServeHTTP (.sync s) .returns =
      { limiter := .sync s, response := none, handlerInvoked := true,
        releaseCalls := 1, panicked := false } ∧
    HandlerServeHTTP (.sync s) .panics =
      { limiter := .sync { s with current := s.current + 1 }, response := none,
        handlerInvoked := true, releaseCalls := 0, panicked := true } := by
  have hstart : callStart (.sync s) =
      some { limiter := .sync { s with current := s.current + 1 },
             releaseIsNil := false, err := none } := by
    simp only [callStart, start_of_available s hroom]
  have hend : callEnd (.sync { s with current := s.current + 1 }) = some (.sync s) := by
    simp only [callEnd, end_after_start s h0]
    rfl
  constructor
  · simp only [HandlerServeHTTP, hstart, hend]
  · simp only [HandlerServeHTTP, hstart]

/-- C4 amended witness at capacity 1, counter 0. -/
theorem C4_release_once_only_on_normal_return_witness :
    HandlerServeHTTP (.sync ⟨1, 0⟩) .returns =
      { limiter := .sync ⟨1, 0⟩, response := none, handlerInvoked := true,
        releaseCalls := 1, panicked := false } :=
  (C4_release_once_only_on_normal_return ⟨1, 0⟩ (by decide) (by decide)).1

/-- C7: whenever `Start()` returns the `ErrLimited` sentinel, the Handler
closure responds with status 429 and the plain-text error body written by
`http.Error` (the sentinel's message plus a newline, with
`Content-Type: text/plain`), does not invoke the wrapped handler, and invokes
no release. -/
theorem C7_rejection_writes_429 (l : LimiterVal) (r : CallStartResult)
    (hstart : callStart l = some r) (hlim : r.err = some GoError.errLimited)
    (outcome : HandlerOutcome) :
    HandlerServeHTTP l outcome =
      { limiter := r.limiter,
        response := some { status := 429,
                           body := "exceeded limit of concurrent operations\n",
                           contentTypePlainText := true },
        handlerInvoked := false, releaseCalls := 0, panicked := false } := by
  simp only [HandlerServeHTTP, hstart, hlim, httpError, GoError.message,
    statusTooManyRequests]
  rfl

/-- C7 witness: a full limiter of capacity 1 rejects and the closure writes
the 429 response. -/
theorem C7_rejection_writes_429_witness :
    HandlerServeHTTP (.sync ⟨1, 1⟩) .returns =
      { limiter := .sync ⟨1, 1⟩,
        response := some { status := 429,
                           body := "exceeded limit of concurrent operations\n",
                           contentTypePlainText := true },
        handlerInvoked := false, releaseCalls := 0, panicked := false } :=
  C7_rejection_writes_429 (.sync ⟨1, 1⟩)
    { limiter := .sync ⟨1, 1⟩, releaseIsNil := true, err := some .errLimited }
    rfl rfl .returns

/-- C8: `limitListenerForServer` returns the request-limit configuration
error, opens no socket, and leaves the server untouched when
`requestLimit ≤ 0`; returns the connection-limit configuration error, opens
no socket, and leaves the server untouched when `connectionLimit <
requestLimit`; and when both constraints hold (and the listen succeeds) it
returns the listener wrapped at `connectionLimit` and installs the admission
middleware built from a limiter of capacity `requestLimit` around the
original handler. -/
theorem C8_setup_validates_before_socket (srv : Server)
    (requestLimit connectionLimit : Int) (listenOk : Bool) :
    (requestLimit ≤ 0 →
      limitListenerForServer srv requestLimit connectionLimit listenOk =
        { srv := srv, socketsOpened := 0,
          result := .failure (.requestLimitNotPositive requestLimit) }) ∧
    (0 < requestLimit → connectionLimit < requestLimit →
      limitListenerForServer srv requestLimit connectionLimit listenOk =
        { srv := srv, socketsOpened := 0,
          result := .failure (.connectionLimitTooSmall connectionLimit requestLimit) }) ∧
    (0 < requestLimit → requestLimit ≤ connectionLimit → listenOk = true →
      (limitListenerForServer srv requestLimit connectionLimit listenOk).result =
          .success { connectionLimit := connectionLimit } ∧
      (limitListenerForServer srv requestLimit connectionLimit listenOk).srv.handler =
          .limited requestLimit srv.handler ∧
      (limitListenerForServer srv requestLimit connectionLimit listenOk).socketsOpened = 1) := by
  refine ⟨?_, ?_, ?_⟩
  · intro h1
    simp only [limitListenerForServer]
    rw [if_pos h1]
  · intro h1 h2
    simp only [limitListenerForServer]
    rw [if_neg (by omega), if_pos h2]
  · intro h1 h2 h3
    simp only [limitListenerForServer, h3]
    rw [if_neg (by omega), if_neg (by omega), if_neg (by simp)]
    exact ⟨rfl, rfl, rfl⟩

/-- C8 witness: requestLimit 0 is rejected with no socket; limits (1, 2) are
accepted, wrapping the listener and installing the middleware. -/
theorem C8_setup_validates_before_socket_witness :
    limitListenerForServer ⟨0, 0, .user⟩ 0 2 true =
      { srv := ⟨0, 0, .user⟩, socketsOpened := 0,
        result := .failure (.requestLimitNotPositive 0) } ∧
    (limitListenerForServer ⟨0, 0, .user⟩ 1 2 true).result = .success ⟨2⟩ ∧
    (limitListenerForServer ⟨0, 0, .user⟩ 1 2 true).srv.handler = .limited 1 .user :=
  ⟨(C8_setup_validates_before_socket ⟨0, 0, .user⟩ 0 2 true).1 (by decide),
   ((C8_setup_validates_before_socket ⟨0, 0, .user⟩ 1 2 true).2.2
     (by decide) (by decide) rfl).1,
   ((C8_setup_validates_before_socket ⟨0, 0, .user⟩ 1 2 true).2.2
     (by decide) (by decide) rfl).2.1⟩

/-- C9: over every limiter state satisfying `0 ≤ current` and every
(possibly nil) user interceptor: on rejection (`current = max`) the
interceptor closure returns the resource-exhausted status carrying the
sentinel's message and invokes neither the user interceptor nor the handler;
on admission (`current < max`) it invokes the user interceptor exactly when
one was supplied and otherwise the handler directly, and releases the slot
exactly once (the deferred `end()`), restoring the counter. -/
theorem C9_unary_interceptor_behavior (s : SyncLimiter) (h0 : 0 ≤ s.current)
    (nextIsNil : Bool) :
    (s.current = s.max →
      UnaryInterceptorCall (.sync s) nextIsNil =
        { limiter := .sync s,
          reply := some (.statusError .resourceExhausted
            "exceeded limit of concurrent operations"),
          nextInvoked := false, handlerInvokedDirectly := false,
          releaseCalls := 0, panicked := false }) ∧
    (s.current < s.max →
      UnaryInterceptorCall (.sync s) nextIsNil =
        { limiter := .sync s,
          reply := some (if nextIsNil then .fromHandler else .fromNext),
          nextInvoked := !nextIsNil, handlerInvokedDirectly := nextIsNil,
          releaseCalls := 1, panicked := false }) := by
  constructor
  · intro hfull
    have hstart : callStart (.sync s) =
        some { limiter := .sync s, releaseIsNil := true,
               err := some GoError.errLimited } := by
      simp only [callStart, start_of_full s (by omega)]
    simp only [UnaryInterceptorCall, hstart, GoError.message]
  · intro hroom
    have hstart : callStart (.sync s) =
        some { limiter := .sync { s with current := s.current + 1 },
               releaseIsNil := false, err := none } := by
      simp only [callStart, start_of_available s hroom]
    have hend : callEnd (.sync { s with current := s.current + 1 }) =
        some (.sync s) := by
      simp only [callEnd, end_after_start s h0]
      rfl
    simp only [UnaryInterceptorCall, hstart, hend]

/-- C9 witness at capacity 1 with a nil user interceptor: counter 1 rejects
with resource-exhausted, counter 0 admits and invokes the handler
directly. -/
theorem C9_unary_interceptor_behavior_witness :
    UnaryInterceptorCall (.sync ⟨1, 1⟩) true =
      { limiter := .sync ⟨1, 1⟩,
        reply := some (.statusError .resourceExhausted
          "exceeded limit of concurrent operations"),
        nextInvoked := false, handlerInvokedDirectly := false,
        releaseCalls := 0, panicked := false } ∧
    UnaryInterceptorCall (.sync ⟨1, 0⟩) true =
      { limiter := .sync ⟨1, 0⟩, reply := some .fromHandler,
        nextInvoked := false, handlerInvokedDirectly := true,
        releaseCalls := 1, panicked := false } :=
  ⟨(C9_unary_interceptor_behavior ⟨1, 1⟩ (by decide) true).1 rfl,
   (C9_unary_interceptor_behavior ⟨1, 0⟩ (by decide) true).2 (by decide)⟩

end ConcurrentLimit
